import Mathlib

/-!
Verification of the aslan-browser Python SDK RPC client/session layer.

This file shallowly embeds the two client implementations of the repository,

  * `sdk/sdk/python/aslan_browser/client.py`       (class `AslanBrowser`), and
  * `sdk/sdk/python/aslan_browser/async_client.py` (class `AsyncAslanBrowser`),

as executable Lean definitions, and proves the specified properties of the
connection / correlation / session / batch layers against them.

Modelling conventions:

  * JSON values are modelled by the inductive `Aslan.Value`.  Wire lines are
    either a `malformed` line (one on which `json.loads` raises) or a parsed
    JSON-RPC envelope object, projected onto the four keys the client code
    ever inspects (`id`, `result`, `error`, `method`) as `Aslan.Msg` — a
    conforming server sends only objects, and the Python code only reads
    these keys.
  * Python dictionaries built and returned by the client are modelled as
    association lists in insertion order.
  * Python exception control flow becomes `Except`; the distinct uncaught
    exception classes of `_call` are the constructors of `Aslan.CallErr`.
    Subscript (`d[k]`) and `.get` failures on non-objects (TypeError /
    AttributeError / KeyError) are collapsed into the single constructor
    `CallErr.pyKeyError`: all of them are uncaught exceptions escaping the
    same expression.
  * Machine-independent `Int` stands for Python's unbounded `int`.
  * The fractional retry delays `[0.1, 0.5, 1.0]` (seconds) are scaled by
    1000 and kept as natural numbers of milliseconds.
-/

namespace Aslan

/-- A JSON value, as produced by `json.loads` on one wire line. -/
inductive Value where
  | null
  | bool (b : Bool)
  | num (n : Int)
  | str (s : String)
  | arr (xs : List Value)
  | obj (fields : List (String × Value))

/-- Python truthiness of a JSON value (`if v:`). -/
def Value.truthy : Value → Bool
  | .null => false
  | .bool b => b
  | .num n => n != 0
  | .str s => s != ""
  | .arr xs => !xs.isEmpty
  | .obj fs => !fs.isEmpty

/-- Key lookup on a JSON object (`v[k]` / `v.get(k)`); `none` both when the
key is absent and when `v` is not an object (in which case the Python
subscript raises, an outcome the callers of this function map to an
exception constructor). -/
def Value.getKey : Value → String → Option Value
  | .obj fs, k => List.lookup k fs
  | _, _ => none

/-- Membership test `k in v` for an object, as used on response payloads. -/
def Value.hasKey (v : Value) (k : String) : Bool :=
  (v.getKey k).isSome

/-- Python truthiness of an `Optional` value (`if x:` where `x` may be `None`). -/
def optTruthy : Option Value → Bool
  | none => false
  | some v => v.truthy

/-- Python `a or b` on two `Optional` values (`session_id or self._session_id`). -/
def pyOr (a b : Option Value) : Option Value :=
  match a with
  | some v => if v.truthy then some v else b
  | none => b

/-- A parsed JSON-RPC envelope, projected onto the keys the client reads:
`id`, `result`, `error`, `method`.  A field is `none` when the key is absent
from the object. -/
structure Msg where
  id : Option Value := none
  result : Option Value := none
  error : Option Value := none
  method : Option Value := none

/-- One line received from the server: either a line `json.loads` rejects,
or a parsed envelope. -/
inductive Line where
  | malformed
  | msg (m : Msg)

/-- `true` for a parsed line lacking an `id` field (a notification). -/
def Line.isNoId : Line → Bool
  | .malformed => false
  | .msg m => m.id.isNone

/-- The distinct uncaught exceptions of the `_call` paths. -/
inductive CallErr where
  | notConnected        -- ConnectionError("Not connected. Call connect() first.")
  | connectionClosed    -- ConnectionError("Connection closed by aslan-browser.")
  | jsonDecodeError     -- json.loads raised on a malformed line (sync client)
  | rpc (code message : Value)  -- AslanBrowserError(code, message)
  | pyKeyError          -- err["code"] / result["tabId"] missing or non-object access

/-- The outbound request envelope (`{"jsonrpc": "2.0", "id": .., "method": ..,
"params": ..}`); the constant `jsonrpc` field is omitted from the model. -/
structure Request where
  id : Int
  method : String
  params : Value

/-- `params or {}` in the request construction of both `_call`s. -/
def pyOrParams (p : Option Value) : Value :=
  match p with
  | some v => if v.truthy then v else Value.obj []
  | none => Value.obj []

/-- Turning a matched response into the call's outcome — the tail of both
`AslanBrowser._call` (client.py:166-169) and `AsyncAslanBrowser._call`
(async_client.py:203-206), which are textually identical in the source:
`if "error" in response: raise AslanBrowserError(err["code"], err["message"])`
else `return response.get("result")`. -/
def completeResponse (m : Msg) : Except CallErr Value :=
  match m.error with
  | some e =>
      match e.getKey "code", e.getKey "message" with
      | some c, some msg => .error (.rpc c msg)
      | _, _ => .error .pyKeyError
  | none => .ok (m.result.getD Value.null)

/-- The read loop of `AslanBrowser._call` (client.py:157-169): read lines,
raise on end-of-stream, raise on a malformed line (`json.loads` is not
guarded), skip lines without an `id`, skip responses whose `id` differs from
`reqId`, and complete on the response whose `id` equals `reqId`. -/
def readForId (reqId : Int) : List Line → Except CallErr Value
  | [] => .error .connectionClosed
  | Line.malformed :: _ => .error .jsonDecodeError
  | Line.msg m :: rest =>
      match m.id with
      | none => readForId reqId rest
      | some v =>
          match v with
          | Value.num i =>
              if i = reqId then completeResponse m else readForId reqId rest
          | _ => readForId reqId rest

/-- State of the synchronous client `AslanBrowser` (client.py).  The socket
and its file wrapper are always set and cleared together, so they collapse
to the single flag `connected`. -/
structure SyncState where
  socketPath : String
  connected : Bool
  nextId : Int
  autoSession : Bool
  sessionId : Option Value
  ownedTabs : List Value

/-- `AslanBrowser.__init__` with `auto_connect=False` (client.py:44-57). -/
def initSync (socketPath : String) (autoSession : Bool) : SyncState :=
  { socketPath := socketPath, connected := false, nextId := 0,
    autoSession := autoSession, sessionId := none, ownedTabs := [] }

/-- `AslanBrowser._call` (client.py:140-169): require a connection, allocate
the next id, emit the request envelope, then run `readForId` on the inbound
lines.  Returns (new state, the request written if any, outcome). -/
def syncCall (s : SyncState) (method : String) (params : Option Value)
    (lines : List Line) : SyncState × Option Request × Except CallErr Value :=
  if s.connected then
    let rid := s.nextId + 1
    ({ s with nextId := rid },
     some { id := rid, method := method, params := pyOrParams params },
     readForId rid lines)
  else (s, none, .error .notConnected)

/-- The fixed backoff schedule `_RETRY_DELAYS = [0.1, 0.5, 1.0]` (client.py:23,
async_client.py:15), in milliseconds. -/
def RETRY_DELAYS : List Nat := [100, 500, 1000]

/-- Outcome of one iteration of the connect loop's attempt to open the
socket (client.py:81-88). -/
inductive AttemptOut where
  | pathMissing          -- os.path.exists(socket_path) is False
  | connectErr (m : String)  -- socket creation / connect raised OSError, message m
  | ok                   -- the socket opened and the stream wrapper was built

/-- The message of the exception recorded in `last_err` for a failed attempt. -/
def attemptErrMsg (path : String) : AttemptOut → Option String
  | .pathMissing =>
      some ("aslan-browser is not running. Socket not found at " ++ path)
  | .connectErr m => some m
  | .ok => none

/-- The final `ConnectionError` message of `connect` (client.py:104-106). -/
def connectFailMsg (lastErr : Option String) : String :=
  "Failed to connect to aslan-browser after " ++ toString RETRY_DELAYS.length
    ++ " attempts: " ++ lastErr.getD "None"

/-- The auto-session block of `connect` (client.py:90-97): with auto-session
on and no session yet, issue `session.create` (which bumps the id counter)
and read `sessionId` off its result; absorb any failure — including a
non-object result, on which `.get` raises — by turning auto-session off. -/
def sessionPhase (s : SyncState) (outcome : Except Unit Value) : SyncState :=
  if s.autoSession && s.sessionId.isNone then
    let s1 := { s with nextId := s.nextId + 1 }
    match outcome with
    | .ok (Value.obj fs) => { s1 with sessionId := List.lookup "sessionId" fs }
    | .ok _ => { s1 with autoSession := false }
    | .error _ => { s1 with autoSession := false }
  else s

/-- The retry loop of `connect` (client.py:79-106): one iteration per entry
of `_RETRY_DELAYS`, with `env k` the outcome of the k-th attempt.  On
success, mark connected and run the auto-session block; on failure, record
`last_err`, sleep the scheduled delay and continue; when the schedule is
exhausted, raise naming the attempt count and the last error.  Returns the
new state, `connect`'s outcome, and the list of delays slept. -/
def connectLoop (env : Nat → AttemptOut) (sessionOutcome : Except Unit Value) :
    SyncState → List Nat → Nat → Option String →
    SyncState × Except String Unit × List Nat
  | s, [], _, lastErr => (s, .error (connectFailMsg lastErr), [])
  | s, d :: rest, k, _ =>
      match env k with
      | .ok => (sessionPhase { s with connected := true } sessionOutcome, .ok (), [])
      | a =>
          let r := connectLoop env sessionOutcome s rest (k + 1)
            (attemptErrMsg s.socketPath a)
          (r.1, r.2.1, d :: r.2.2)

/-- `AslanBrowser.connect` (client.py:73-106); `AsyncAslanBrowser.connect`
(async_client.py:60-92) has line-for-line the same control flow and is
covered by the same embedding.  Already-connected is a no-op. -/
def connectSync (s : SyncState) (env : Nat → AttemptOut)
    (sessionOutcome : Except Unit Value) :
    SyncState × Except String Unit × List Nat :=
  if s.connected then (s, .ok (), [])
  else connectLoop env sessionOutcome s RETRY_DELAYS 0 none

/-- `AslanBrowser.close` (client.py:108-130): with a truthy session id and
auto-session on, issue a best-effort `session.destroy` (`_call` raises
before bumping the counter when disconnected, and every exception is
swallowed) and null the session id; then clear the owned-tab list and drop
the stream and socket. -/
def closeSync (s : SyncState) : SyncState :=
  let s1 :=
    if optTruthy s.sessionId && s.autoSession then
      { (if s.connected then { s with nextId := s.nextId + 1 } else s) with
        sessionId := none }
    else s
  { s1 with ownedTabs := [], connected := false }

/-- The tail shared verbatim by `AslanBrowser.tab_create` (client.py:360-362)
and `AsyncAslanBrowser.tab_create` (async_client.py:399-401): on a
successful call, read `result["tabId"]` (KeyError when absent), append it
unconditionally to `owned_tabs` and return it; a call failure propagates. -/
def trackCreatedTab (ownedTabs : List Value) (out : Except CallErr Value) :
    List Value × Except CallErr Value :=
  match out with
  | .ok v =>
      match v.getKey "tabId" with
      | some t => (ownedTabs ++ [t], .ok t)
      | none => (ownedTabs, .error .pyKeyError)
  | .error e => (ownedTabs, .error e)

/-- `AslanBrowser.tab_create` (client.py:336-362): build the params object
(width and height always; url when truthy; hidden when not None; a
`sessionId` tag from `session_id or self._session_id` when that is truthy),
issue `tab.create`, and on success read `result["tabId"]`, append it to the
owned-tab list and return it. -/
def tab_create (s : SyncState) (url : Option Value) (width height : Value)
    (hidden : Option Value) (sessionArg : Option Value) (lines : List Line) :
    SyncState × Except CallErr Value :=
  let f0 := [("width", width), ("height", height)]
  let f1 := if optTruthy url then f0 ++ [("url", url.getD Value.null)] else f0
  let f2 := match hidden with
    | some h => f1 ++ [("hidden", h)]
    | none => f1
  let f3 := match pyOr sessionArg s.sessionId with
    | some v => if v.truthy then f2 ++ [("sessionId", v)] else f2
    | none => f2
  let r := syncCall s "tab.create" (some (Value.obj f3)) lines
  let tr := trackCreatedTab r.1.ownedTabs r.2.2
  ({ r.1 with ownedTabs := tr.1 }, tr.2)

/-- The uncaught exceptions of the fan-out helpers' per-entry accesses:
`.get` on a non-object raises AttributeError; `in` on a non-container and
subscripting a list or string with `"data"` raise TypeError; a dict
subscript with a missing key raises KeyError. -/
inductive PyErr where
  | attributeError
  | typeError
  | keyError

/-- `.get(key, default)` on a sub-response's `result` payload; raises
(AttributeError) when the payload is not an object. -/
def pyGet (v : Value) (key : String) (dflt : Value) : Except PyErr Value :=
  match v with
  | .obj fs => .ok ((List.lookup key fs).getD dflt)
  | _ => .error .attributeError

/-- The result-building loop of `AslanBrowser.parallel_get_trees`
(client.py:428-434): over `zip(tab_ids, responses)`, a sub-response with a
`result` contributes `result.get("tree", [])`, one without contributes `[]`.
The returned dict is modelled as an association list in insertion order. -/
def getTreesLoop : List (String × Msg) → Except PyErr (List (String × Value))
  | [] => .ok []
  | (tid, resp) :: rest =>
      match resp.result with
      | some r =>
          match pyGet r "tree" (Value.arr []) with
          | .ok tree =>
              match getTreesLoop rest with
              | .ok tl => .ok ((tid, tree) :: tl)
              | .error e => .error e
          | .error e => .error e
      | none =>
          match getTreesLoop rest with
          | .ok tl => .ok ((tid, Value.arr []) :: tl)
          | .error e => .error e

/-- `AslanBrowser.parallel_get_trees` (client.py:416-434), from the batch
responses; `AsyncAslanBrowser.parallel_get_trees` (async_client.py:455-473)
is identical. -/
def parallel_get_trees (tabIds : List String) (responses : List Msg) :
    Except PyErr (List (String × Value)) :=
  getTreesLoop (tabIds.zip responses)

/-- The result-building loop of `AslanBrowser.parallel_navigate`
(client.py:454-461): a sub-response with a `result` contributes it; one
without contributes `resp.get("error", {"message": "Unknown error"})`. -/
def navigateLoop : List ((String × String) × Msg) → List (String × Value)
  | [] => []
  | ((tid, _), resp) :: rest =>
      (tid,
        match resp.result with
        | some r => r
        | none =>
            resp.error.getD (Value.obj [("message", Value.str "Unknown error")]))
        :: navigateLoop rest

/-- `AslanBrowser.parallel_navigate` (client.py:436-461), from the batch
responses; the async variant (async_client.py:475-500) is identical.  The
input dict `urls` is an association list in insertion order. -/
def parallel_navigate (urls : List (String × String)) (responses : List Msg) :
    List (String × Value) :=
  navigateLoop (urls.zip responses)

/-- Whether the character list `pat` starts the character list given first. -/
def charListStartsWith : List Char → List Char → Bool
  | _, [] => true
  | [], _ :: _ => false
  | c :: cs, p :: ps => c == p && charListStartsWith cs ps

/-- Whether the character list `pat` occurs inside the first list. -/
def charListHasSub : List Char → List Char → Bool
  | [], pat => pat.isEmpty
  | l@(_ :: cs), pat => charListStartsWith l pat || charListHasSub cs pat

/-- Python's substring test `pat in s` on strings. -/
def pyStrContains (s pat : String) : Bool :=
  charListHasSub s.data pat.data

/-- The Python membership test `"data" in v` (client.py:478): key membership
on a dict, element equality on a list, substring test on a string; on any
other value (`None`, a number, a boolean) `in` raises TypeError. -/
def pyInData : Value → Except PyErr Bool
  | .obj fs => .ok (List.lookup "data" fs).isSome
  | .arr xs =>
      .ok (xs.any fun v => match v with | .str s => s == "data" | _ => false)
  | .str s => .ok (pyStrContains s "data")
  | _ => .error .typeError

/-- The Python subscript `v["data"]` (client.py:479): dict lookup (KeyError
when the key is absent); on a list or a string the subscript raises
TypeError, since `"data"` is not an integer index or slice. -/
def pySubData : Value → Except PyErr Value
  | .obj fs =>
      match List.lookup "data" fs with
      | some d => .ok d
      | none => .error .keyError
  | _ => .error .typeError

/-- The result-building loop of `AslanBrowser.parallel_screenshots`
(client.py:476-480): for each zipped pair, evaluate
`"result" in resp and "data" in resp["result"]` — where the `in` test on a
non-container result raises TypeError, aborting the whole helper — and on
success store `decode(resp["result"]["data"])`, where subscripting a list
or string result also raises; every tab id whose condition is false is
omitted from the returned dict.  `decode` stands for `base64.b64decode`,
kept abstract including its own failure outcomes. -/
def screenshotsLoop (decode : Value → Except PyErr Value) :
    List (String × Msg) → Except PyErr (List (String × Value))
  | [] => .ok []
  | (tid, resp) :: rest =>
      match resp.result with
      | none => screenshotsLoop decode rest
      | some r =>
          match pyInData r with
          | .error e => .error e
          | .ok false => screenshotsLoop decode rest
          | .ok true =>
              match pySubData r with
              | .error e => .error e
              | .ok d =>
                  match decode d with
                  | .error e => .error e
                  | .ok b =>
                      match screenshotsLoop decode rest with
                      | .ok tl => .ok ((tid, b) :: tl)
                      | .error e => .error e

/-- `AslanBrowser.parallel_screenshots` (client.py:463-480), from the batch
responses; the async variant (async_client.py:502-519) is identical. -/
def parallel_screenshots (decode : Value → Except PyErr Value)
    (tabIds : List String) (responses : List Msg) :
    Except PyErr (List (String × Value)) :=
  screenshotsLoop decode (tabIds.zip responses)

/-- Per-entry value of `parallel_navigate` (what client.py:456-460 stores
for one zipped pair). -/
def navValue (resp : Msg) : Value :=
  match resp.result with
  | some r => r
  | none => resp.error.getD (Value.obj [("message", Value.str "Unknown error")])

/-- Per-entry outcome of `parallel_get_trees` (client.py:429-433). -/
def treeValue (resp : Msg) : Except PyErr Value :=
  match resp.result with
  | some r => pyGet r "tree" (Value.arr [])
  | none => .ok (Value.arr [])

/-- Per-entry outcome of `parallel_screenshots`' condition and subscript
(client.py:477-479): `ok none` when the entry is omitted, `ok (some d)` with
the raw data value when present, and the uncaught exception when the `in`
test or the subscript raises. -/
def shotValue (resp : Msg) : Except PyErr (Option Value) :=
  match resp.result with
  | none => .ok none
  | some r =>
      match pyInData r with
      | .error e => .error e
      | .ok false => .ok none
      | .ok true =>
          match pySubData r with
          | .error e => .error e
          | .ok d => .ok (some d)

/-- Per-entry contribution of `parallel_screenshots` including the decode
step: the entry for `tid`, or `none` when it is omitted, or the uncaught
exception. -/
def shotEntry (decode : Value → Except PyErr Value) (tid : String)
    (resp : Msg) : Except PyErr (Option (String × Value)) :=
  match shotValue resp with
  | .error e => .error e
  | .ok none => .ok none
  | .ok (some d) =>
      match decode d with
      | .error e => .error e
      | .ok b => .ok (some (tid, b))

/-- The two `ConnectionError`s used to fail pending futures in the async
client: `"Connection lost."` (read-loop teardown, async_client.py:173) and
`"Connection closed."` (close, async_client.py:125). -/
inductive ConnErr where
  | lost
  | closed
deriving DecidableEq

/-- The state of one `asyncio.Future` held by a caller of
`AsyncAslanBrowser._call`. -/
inductive FutState where
  | waiting
  | resolved (m : Msg)
  | failed (e : ConnErr)

/-- State of `AsyncAslanBrowser` (async_client.py).  `futures` holds every
future `_call` has created, keyed by request id — callers keep references to
them even after the `_pending` map is cleared, so they are tracked apart
from `pendingIds`, the key set of `self._pending`.  `events` records the
notifications handed to the registered event callback. -/
structure AsyncState where
  socketPath : String
  connected : Bool
  readTask : Bool
  nextId : Int
  futures : List (Int × FutState)
  pendingIds : List Int
  onEvent : Bool
  events : List Msg
  autoSession : Bool
  sessionId : Option Value
  ownedTabs : List Value

/-- `AsyncAslanBrowser.__init__` (async_client.py:36-46). -/
def initAsync (socketPath : String) (autoSession : Bool) : AsyncState :=
  { socketPath := socketPath, connected := false, readTask := false,
    nextId := 0, futures := [], pendingIds := [], onEvent := false,
    events := [], autoSession := autoSession, sessionId := none,
    ownedTabs := [] }

/-- Replace the state of the future keyed `i`. -/
def setFut (fs : List (Int × FutState)) (i : Int) (f : FutState) :
    List (Int × FutState) :=
  fs.map (fun p => if p.1 = i then (i, f) else p)

/-- `set_exception(ConnectionError(..))` on every not-yet-done future whose
id is in `ids` — the bodies of async_client.py:123-125 and 171-173. -/
def failPending : List (Int × FutState) → List Int → ConnErr →
    List (Int × FutState)
  | [], _, _ => []
  | (k, v) :: tl, ids, e =>
      (if k ∈ ids then
        match v with
        | .waiting => (k, FutState.failed e)
        | .resolved m => (k, FutState.resolved m)
        | .failed e2 => (k, FutState.failed e2)
      else (k, v)) :: failPending tl ids e

/-- Whether the loop body proceeds to the next line or the loop stops (an
exception escaped the body into the outer handler). -/
inductive LoopCtl where
  | next (s : AsyncState)
  | stop (s : AsyncState)

/-- One iteration body of `AsyncAslanBrowser._read_loop`
(async_client.py:149-164): skip a malformed line (`json.JSONDecodeError` →
`continue`); if the line has an `id` that is a key of `_pending`, call
`set_result` on that future (`set_result` on a done future raises, which the
loop-level handler turns into loop exit); otherwise, if the line has a
`method`, hand it to the event callback when one is registered (callback
errors are swallowed). -/
def routeLine (s : AsyncState) (l : Line) : LoopCtl :=
  match l with
  | .malformed => .next s
  | .msg m =>
      match m.id with
      | some (Value.num i) =>
          if i ∈ s.pendingIds then
            match List.lookup i s.futures with
            | some .waiting => .next { s with futures := setFut s.futures i (.resolved m) }
            | some _ => .stop s   -- InvalidStateError from set_result
            | none => .stop s    -- unreachable: every pending key has a future
          else routeEvent s m
      | some _ => routeEvent s m
      | none => routeEvent s m
where
  /-- The `elif "method" in msg` arm (async_client.py:156-164). -/
  routeEvent (s : AsyncState) (m : Msg) : LoopCtl :=
    match m.method with
    | some _ => if s.onEvent then .next { s with events := s.events ++ [m] } else .next s
    | none => .next s

/-- The `finally` block of `_read_loop` (async_client.py:169-174): fail
every pending future with `ConnectionError("Connection lost.")` and clear
the pending map. -/
def readLoopFinally (s : AsyncState) : AsyncState :=
  { s with futures := failPending s.futures s.pendingIds .lost,
           pendingIds := [] }

/-- `AsyncAslanBrowser._read_loop` (async_client.py:141-174) run over the
connection's inbound lines: route each line until the stream ends (empty
read → `break`) or the body raises, then run the `finally` block. -/
def readLoopRun (s : AsyncState) : List Line → AsyncState
  | [] => readLoopFinally s
  | l :: rest =>
      match routeLine s l with
      | .next s1 => readLoopRun s1 rest
      | .stop s1 => readLoopFinally s1

/-- The send half of `AsyncAslanBrowser._call` (async_client.py:178-196):
require a writer, allocate the next id, create and register the future, and
write the envelope. -/
def asyncCallSend (s : AsyncState) (method : String) (params : Option Value) :
    AsyncState × Option Request :=
  if s.connected then
    let rid := s.nextId + 1
    ({ s with nextId := rid,
              futures := s.futures ++ [(rid, .waiting)],
              pendingIds := s.pendingIds ++ [rid] },
     some { id := rid, method := method, params := pyOrParams params })
  else (s, none)

/-- `AsyncAslanBrowser.close` (async_client.py:94-126).  `destroyOutcome`
abstracts how the best-effort `session.destroy` round-trip ends while the
reader is still running: `some m` when its future is resolved with response
`m`, `none` when awaiting it raised; either way `_call`'s `finally` pops the
request id from `_pending` and every exception is swallowed.  Then: clear
the owned-tab list; cancel the read task, whose `finally` fails all pending
futures with `"Connection lost."` and clears the map; drop writer and
reader; finally fail whatever is still pending with `"Connection closed."`
and clear the map.  The session-destroy block (async_client.py:97-102) is
`closeDestroyPhase`, the read-task cancellation is `closeCancelReader`. -/
def closeDestroyPhase (s : AsyncState) (destroyOutcome : Option Msg) : AsyncState :=
  if optTruthy s.sessionId && s.autoSession then
    let s0 :=
      if s.connected then
        let rid := s.nextId + 1
        let fut := match destroyOutcome with
          | some m => FutState.resolved m
          | none => FutState.failed .lost
        { s with nextId := rid,
                 futures := s.futures ++ [(rid, fut)],
                 pendingIds := (s.pendingIds ++ [rid]).erase rid }
      else s
    { s0 with sessionId := none }
  else s

/-- Cancellation of the read task by `close` (async_client.py:105-111): the
`CancelledError` reaches `_read_loop`, whose `finally` fails every pending
future with `"Connection lost."` and clears the map. -/
def closeCancelReader (s : AsyncState) : AsyncState :=
  if s.readTask then
    { s with readTask := false,
             futures := failPending s.futures s.pendingIds .lost,
             pendingIds := [] }
  else s

def asyncClose (s : AsyncState) (destroyOutcome : Option Msg) : AsyncState :=
  let s1 := closeDestroyPhase s destroyOutcome
  let s2 := { s1 with ownedTabs := [] }
  let s3 := closeCancelReader s2
  let s4 := { s3 with connected := false }
  { s4 with futures := failPending s4.futures s4.pendingIds .closed,
            pendingIds := [] }

/-- `AsyncAslanBrowser.tab_create` (async_client.py:375-401), with the
`_call` round-trip outcome supplied: on success, append `result["tabId"]`
to the owned-tab list and return it. -/
def asyncTabCreate (s : AsyncState) (callResult : Except CallErr Value) :
    AsyncState × Except CallErr Value :=
  let tr := trackCreatedTab s.ownedTabs callResult
  ({ s with ownedTabs := tr.1 }, tr.2)

/-- A sequence of `_call`s on the synchronous client, collecting the request
ids placed on the wire. -/
def runSyncCalls (s : SyncState) :
    List (String × Option Value × List Line) → SyncState × List Int
  | [] => (s, [])
  | (m, p, ls) :: rest =>
      let r := syncCall s m p ls
      let t := runSyncCalls r.1 rest
      (t.1, (match r.2.1 with | some req => [req.id] | none => []) ++ t.2)

/-- A sequence of `_call` sends on the async client, collecting the request
ids placed on the wire. -/
def runAsyncSends (s : AsyncState) :
    List (String × Option Value) → AsyncState × List Int
  | [] => (s, [])
  | (m, p) :: rest =>
      let r := asyncCallSend s m p
      let t := runAsyncSends r.1 rest
      (t.1, (match r.2 with | some req => [req.id] | none => []) ++ t.2)

/-! Concrete fixtures used by witnesses and counterexamples. -/

/-- A connected synchronous client with no calls made yet. -/
def wConn : SyncState :=
  { socketPath := "/tmp/aslan-browser.sock", connected := true, nextId := 0,
    autoSession := true, sessionId := none, ownedTabs := [] }

/-- A notification line payload (no `id`). -/
def wNotif : Msg := { method := some (Value.str "page.loaded") }

/-- A successful response to request id 1. -/
def wResp : Msg :=
  { id := some (Value.num 1),
    result := some (Value.obj [("title", Value.str "Example")]) }

/-- An error response to request id 1 with a structured error envelope. -/
def wErrResp : Msg :=
  { id := some (Value.num 1),
    error := some (Value.obj
      [("code", Value.num (-32601)), ("message", Value.str "method not found")]) }

/-- A successful `tab.create` response to request id 1. -/
def wTabResp : Msg :=
  { id := some (Value.num 1),
    result := some (Value.obj [("tabId", Value.str "tab7")]) }

/-- A connected synchronous client holding an auto-session. -/
def wConnS : SyncState := { wConn with sessionId := some (Value.str "sess-1") }

/-- A connected async client with two in-flight calls. -/
def wAsync : AsyncState :=
  { initAsync "/tmp/aslan-browser.sock" false with
    connected := true, readTask := true, nextId := 2,
    futures := [(1, .waiting), (2, .waiting)], pendingIds := [1, 2] }

/-- A connected async client with one in-flight call. -/
def cexRouter : AsyncState :=
  { initAsync "/tmp/aslan-browser.sock" false with
    connected := true, readTask := true, nextId := 1,
    futures := [(1, .waiting)], pendingIds := [1] }

/-- A successful response to request id 1, for the read-loop counterexample. -/
def cexResp : Msg :=
  { id := some (Value.num 1),
    result := some (Value.obj [("ok", Value.bool true)]) }

/-- A failed batch sub-response (error envelope, no `result`). -/
def cexErrShot : Msg :=
  { error := some (Value.obj
      [("code", Value.num (-32000)), ("message", Value.str "no such tab")]) }

/-- A successful screenshot batch sub-response. -/
def cexOkShot : Msg :=
  { result := some (Value.obj [("data", Value.str "QUJD")]) }

/-! Helper lemmas. -/

/-- The sync read loop ignores any leading lines that lack an `id` field. -/
theorem readForId_skip_noid (r : Int) (pre ls : List Line)
    (h : ∀ l ∈ pre, Line.isNoId l = true) :
    readForId r (pre ++ ls) = readForId r ls := by
  induction pre with
  | nil => rfl
  | cons hd tl ih =>
      have hhd := h hd (List.mem_cons_self hd tl)
      cases hd with
      | malformed => simp [Line.isNoId] at hhd
      | msg m =>
          have hid : m.id = none := by
            simpa [Line.isNoId, Option.isNone_iff_eq_none] using hhd
          rw [List.cons_append]
          simp only [readForId, hid]
          exact ih (fun l hl => h l (List.mem_cons_of_mem _ hl))

/-- Claim C2: on the synchronous client, `_call` writes one envelope with a
fresh id and reads lines, discarding id-less notification lines, until the
response bearing its own id arrives; that response's `result` is returned,
or its structured error is raised. -/
theorem sync_call_correlation (s : SyncState) (method : String)
    (params : Option Value) (pre rest : List Line) (m : Msg)
    (hc : s.connected = true)
    (hpre : ∀ l ∈ pre, Line.isNoId l = true)
    (hm : m.id = some (Value.num (s.nextId + 1))) :
    (syncCall s method params (pre ++ Line.msg m :: rest)).2.1 =
      some { id := s.nextId + 1, method := method, params := pyOrParams params } ∧
    (syncCall s method params (pre ++ Line.msg m :: rest)).2.2 =
      completeResponse m ∧
    (m.error = none →
      (syncCall s method params (pre ++ Line.msg m :: rest)).2.2 =
        Except.ok (m.result.getD Value.null)) := by
  have hread : readForId (s.nextId + 1) (pre ++ Line.msg m :: rest) =
      completeResponse m := by
    rw [readForId_skip_noid _ _ _ hpre]
    simp [readForId, hm]
  refine ⟨?_, ?_, ?_⟩
  · simp [syncCall, hc]
  · simp [syncCall, hc, hread]
  · intro herr
    simp [syncCall, hc, hread, completeResponse, herr]

/-- Witness for C2 on concrete inputs: one notification line then the
matching response. -/
theorem sync_call_correlation_witness :
    wConn.connected = true ∧
    wResp.id = some (Value.num (wConn.nextId + 1)) ∧
    ((syncCall wConn "getTitle" none ([Line.msg wNotif] ++ Line.msg wResp :: [])).2.1 =
      some { id := wConn.nextId + 1, method := "getTitle",
             params := pyOrParams none } ∧
     (syncCall wConn "getTitle" none ([Line.msg wNotif] ++ Line.msg wResp :: [])).2.2 =
      completeResponse wResp ∧
     (wResp.error = none →
      (syncCall wConn "getTitle" none ([Line.msg wNotif] ++ Line.msg wResp :: [])).2.2 =
        Except.ok (wResp.result.getD Value.null))) :=
  ⟨rfl, by simp [wResp, wConn],
   sync_call_correlation wConn "getTitle" none [Line.msg wNotif] [] wResp rfl
     (by intro l hl; obtain rfl := List.mem_singleton.mp hl; rfl)
     (by simp [wResp, wConn])⟩

/-- Claim C8: a matching response carrying an error envelope with `code` and
`message` makes the call raise a typed error carrying exactly that code and
message, in both clients (`completeResponse` is the shared completion logic
of client.py:166-169 and async_client.py:203-206); no result is returned. -/
theorem server_error_propagated (s : SyncState) (method : String)
    (params : Option Value) (pre rest : List Line) (m : Msg) (e c emsg : Value)
    (hc : s.connected = true)
    (hpre : ∀ l ∈ pre, Line.isNoId l = true)
    (hm : m.id = some (Value.num (s.nextId + 1)))
    (he : m.error = some e)
    (hcode : e.getKey "code" = some c)
    (hmsg : e.getKey "message" = some emsg) :
    (syncCall s method params (pre ++ Line.msg m :: rest)).2.2 =
      Except.error (CallErr.rpc c emsg) ∧
    completeResponse m = Except.error (CallErr.rpc c emsg) := by
  have h2 : completeResponse m = Except.error (CallErr.rpc c emsg) := by
    simp [completeResponse, he, hcode, hmsg]
  have hread : readForId (s.nextId + 1) (pre ++ Line.msg m :: rest) =
      completeResponse m := by
    rw [readForId_skip_noid _ _ _ hpre]
    simp [readForId, hm]
  exact ⟨by simp [syncCall, hc, hread, h2], h2⟩

/-- Witness for C8: a `-32601` error envelope is propagated bit-exact. -/
theorem server_error_propagated_witness :
    wErrResp.error = some (Value.obj
      [("code", Value.num (-32601)), ("message", Value.str "method not found")]) ∧
    ((syncCall wConn "frobnicate" none [Line.msg wErrResp]).2.2 =
      Except.error (CallErr.rpc (Value.num (-32601)) (Value.str "method not found")) ∧
     completeResponse wErrResp =
      Except.error (CallErr.rpc (Value.num (-32601)) (Value.str "method not found"))) :=
  ⟨rfl,
   by
    have h := server_error_propagated wConn "frobnicate" none [] [] wErrResp
      (Value.obj [("code", Value.num (-32601)), ("message", Value.str "method not found")])
      (Value.num (-32601)) (Value.str "method not found")
      rfl (by intro l hl; simp at hl) (by simp [wErrResp, wConn]) rfl rfl rfl
    simpa using h⟩

/-- Every id emitted by a sequence of sync calls exceeds the starting
counter value. -/
theorem runSyncCalls_lb (reqs : List (String × Option Value × List Line)) :
    ∀ (s : SyncState) (i : Int), i ∈ (runSyncCalls s reqs).2 → s.nextId < i := by
  induction reqs with
  | nil => intro s i h; simp [runSyncCalls] at h
  | cons hd tl ih =>
      intro s i h
      obtain ⟨m, p, ls⟩ := hd
      cases hcon : s.connected with
      | false =>
          simp only [runSyncCalls, syncCall, hcon] at h
          simp at h
          exact ih s i h
      | true =>
          simp only [runSyncCalls, syncCall, hcon] at h
          simp at h
          rcases h with h | h
          · omega
          · have := ih _ i h
            simp at this
            omega

/-- The ids emitted by a sequence of sync calls are pairwise strictly
increasing. -/
theorem runSyncCalls_pairwise (reqs : List (String × Option Value × List Line)) :
    ∀ s : SyncState, List.Pairwise (· < ·) (runSyncCalls s reqs).2 := by
  induction reqs with
  | nil => intro s; simp [runSyncCalls]
  | cons hd tl ih =>
      intro s
      obtain ⟨m, p, ls⟩ := hd
      cases hcon : s.connected with
      | false =>
          simp only [runSyncCalls, syncCall, hcon]
          simpa using ih s
      | true =>
          simp only [runSyncCalls, syncCall, hcon]
          simp only [if_true]
          refine List.Pairwise.cons ?_ (ih _)
          intro i hi
          have := runSyncCalls_lb tl _ i hi
          simp at this
          omega

/-- Every id emitted by a sequence of async sends exceeds the starting
counter value. -/
theorem runAsyncSends_lb (reqs : List (String × Option Value)) :
    ∀ (s : AsyncState) (i : Int), i ∈ (runAsyncSends s reqs).2 → s.nextId < i := by
  induction reqs with
  | nil => intro s i h; simp [runAsyncSends] at h
  | cons hd tl ih =>
      intro s i h
      obtain ⟨m, p⟩ := hd
      cases hcon : s.connected with
      | false =>
          simp only [runAsyncSends, asyncCallSend, hcon] at h
          simp at h
          exact ih s i h
      | true =>
          simp only [runAsyncSends, asyncCallSend, hcon] at h
          simp at h
          rcases h with h | h
          · omega
          · have := ih _ i h
            simp at this
            omega

/-- The ids emitted by a sequence of async sends are pairwise strictly
increasing. -/
theorem runAsyncSends_pairwise (reqs : List (String × Option Value)) :
    ∀ s : AsyncState, List.Pairwise (· < ·) (runAsyncSends s reqs).2 := by
  induction reqs with
  | nil => intro s; simp [runAsyncSends]
  | cons hd tl ih =>
      intro s
      obtain ⟨m, p⟩ := hd
      cases hcon : s.connected with
      | false =>
          simp only [runAsyncSends, asyncCallSend, hcon]
          simpa using ih s
      | true =>
          simp only [runAsyncSends, asyncCallSend, hcon]
          simp only [if_true]
          refine List.Pairwise.cons ?_ (ih _)
          intro i hi
          have := runAsyncSends_lb tl _ i hi
          simp at this
          omega

/-- Claim C7: over any sequence of calls on one client, the request ids
placed on the wire are strictly monotonically increasing — hence never
reused — in both the synchronous and the asynchronous client. -/
theorem request_ids_strictly_increasing :
    (∀ (s : SyncState) (reqs : List (String × Option Value × List Line)),
        List.Pairwise (· < ·) (runSyncCalls s reqs).2) ∧
    (∀ (s : AsyncState) (reqs : List (String × Option Value)),
        List.Pairwise (· < ·) (runAsyncSends s reqs).2) :=
  ⟨fun s reqs => runSyncCalls_pairwise reqs s,
   fun s reqs => runAsyncSends_pairwise reqs s⟩

/-- Claim C4: connecting to a nonexistent endpoint (every attempt sees the
socket path missing) consumes the whole fixed backoff schedule — all three
scheduled attempts, sleeping each scheduled delay — leaves the client state
untouched, and only then raises an error whose message names the socket
path. -/
theorem connect_retries_full_budget (s : SyncState) (o : Except Unit Value)
    (hc : s.connected = false) :
    (connectSync s (fun _ => AttemptOut.pathMissing) o).1 = s ∧
    (connectSync s (fun _ => AttemptOut.pathMissing) o).2.2 = RETRY_DELAYS ∧
    (connectSync s (fun _ => AttemptOut.pathMissing) o).2.1 =
      Except.error
        ("Failed to connect to aslan-browser after 3 attempts: aslan-browser is not running. Socket not found at "
          ++ s.socketPath) := by
  have hmsg : connectFailMsg (attemptErrMsg s.socketPath AttemptOut.pathMissing) =
      "Failed to connect to aslan-browser after 3 attempts: aslan-browser is not running. Socket not found at "
        ++ s.socketPath := by
    show "Failed to connect to aslan-browser after " ++ toString RETRY_DELAYS.length
        ++ " attempts: "
        ++ ("aslan-browser is not running. Socket not found at " ++ s.socketPath) = _
    rw [← String.append_assoc]
    rfl
  refine ⟨?_, ?_, ?_⟩ <;>
    simp [connectSync, hc, RETRY_DELAYS, connectLoop, hmsg]

/-- Witness for C4 at a concrete disconnected client. -/
theorem connect_retries_full_budget_witness :
    (initSync "/tmp/aslan-browser.sock" true).connected = false ∧
    ((connectSync (initSync "/tmp/aslan-browser.sock" true)
        (fun _ => AttemptOut.pathMissing) (Except.error ())).1 =
        initSync "/tmp/aslan-browser.sock" true ∧
     (connectSync (initSync "/tmp/aslan-browser.sock" true)
        (fun _ => AttemptOut.pathMissing) (Except.error ())).2.2 = RETRY_DELAYS ∧
     (connectSync (initSync "/tmp/aslan-browser.sock" true)
        (fun _ => AttemptOut.pathMissing) (Except.error ())).2.1 =
      Except.error
        ("Failed to connect to aslan-browser after 3 attempts: aslan-browser is not running. Socket not found at "
          ++ (initSync "/tmp/aslan-browser.sock" true).socketPath)) :=
  ⟨rfl, connect_retries_full_budget (initSync "/tmp/aslan-browser.sock" true)
    (Except.error ()) rfl⟩

/-- Claim C5: if the socket opens on the first attempt but the auto-session
`session.create` call fails, `connect` still succeeds, the failure is
absorbed, and auto-session mode is disabled for the remainder of the
instance's life; no error reaches the caller. -/
theorem session_create_failure_absorbed (s : SyncState) (env : Nat → AttemptOut)
    (hc : s.connected = false) (ha : s.autoSession = true)
    (hs : s.sessionId = none) (h0 : env 0 = AttemptOut.ok) :
    (connectSync s env (Except.error ())).2.1 = Except.ok () ∧
    (connectSync s env (Except.error ())).1.connected = true ∧
    (connectSync s env (Except.error ())).1.autoSession = false ∧
    (connectSync s env (Except.error ())).1.sessionId = none := by
  refine ⟨?_, ?_, ?_, ?_⟩ <;>
    simp [connectSync, hc, RETRY_DELAYS, connectLoop, h0, sessionPhase, ha, hs]

/-- Witness for C5 at a concrete client whose first attempt connects and
whose `session.create` errors. -/
theorem session_create_failure_absorbed_witness :
    (initSync "/tmp/aslan-browser.sock" true).connected = false ∧
    ((connectSync (initSync "/tmp/aslan-browser.sock" true) (fun _ => AttemptOut.ok)
        (Except.error ())).2.1 = Except.ok () ∧
     (connectSync (initSync "/tmp/aslan-browser.sock" true) (fun _ => AttemptOut.ok)
        (Except.error ())).1.connected = true ∧
     (connectSync (initSync "/tmp/aslan-browser.sock" true) (fun _ => AttemptOut.ok)
        (Except.error ())).1.autoSession = false ∧
     (connectSync (initSync "/tmp/aslan-browser.sock" true) (fun _ => AttemptOut.ok)
        (Except.error ())).1.sessionId = none) :=
  ⟨rfl, session_create_failure_absorbed (initSync "/tmp/aslan-browser.sock" true)
    (fun _ => AttemptOut.ok) rfl rfl rfl rfl⟩

/-- Failing an empty pending set changes no future. -/
theorem failPending_nil (fs : List (Int × FutState)) (e : ConnErr) :
    failPending fs [] e = fs := by
  induction fs with
  | nil => rfl
  | cons hd tl ih =>
      obtain ⟨k, v⟩ := hd
      cases v <;> simp [failPending, ih]

/-- Field-level characterisation of `closeSync`. -/
theorem closeSync_eq (s : SyncState) :
    closeSync s =
      { socketPath := s.socketPath, connected := false,
        nextId := if optTruthy s.sessionId && s.autoSession then
            (if s.connected then s.nextId + 1 else s.nextId) else s.nextId,
        autoSession := s.autoSession,
        sessionId := if optTruthy s.sessionId && s.autoSession then none
            else s.sessionId,
        ownedTabs := [] } := by
  by_cases h : (optTruthy s.sessionId && s.autoSession) = true <;>
    cases hc : s.connected <;> simp [closeSync, h, hc]

/-- Projections of the async close that do not depend on the branching. -/
theorem asyncClose_proj (s : AsyncState) (o : Option Msg) :
    (asyncClose s o).pendingIds = [] ∧ (asyncClose s o).ownedTabs = [] ∧
    (asyncClose s o).connected = false ∧ (asyncClose s o).readTask = false ∧
    (asyncClose s o).autoSession = s.autoSession ∧
    (asyncClose s o).sessionId =
      (if optTruthy s.sessionId && s.autoSession then none else s.sessionId) := by
  by_cases hb : (optTruthy s.sessionId && s.autoSession) = true <;>
    cases hc : s.connected <;> cases hr : s.readTask <;>
      simp [asyncClose, closeDestroyPhase, closeCancelReader, hb, hc, hr]

/-- A disconnected async client with nothing pending, nothing owned, no
session-destroy to run and no read task is a fixed point of `close`. -/
theorem asyncClose_fixed (s : AsyncState)
    (h1 : (optTruthy s.sessionId && s.autoSession) = false)
    (h2 : s.readTask = false) (h3 : s.connected = false)
    (h4 : s.ownedTabs = []) (h5 : s.pendingIds = []) (o : Option Msg) :
    asyncClose s o = s := by
  obtain ⟨p, c, rt, n, fs, pids, oe, ev, a, sid, ot⟩ := s
  simp only at h1 h2 h3 h4 h5
  subst h2 h3 h4 h5
  simp [asyncClose, closeDestroyPhase, closeCancelReader, h1, failPending_nil]

/-- Claim C9: `close` is idempotent in both clients — a second close after a
first is a no-op, and closing a never-connected instance returns it
unchanged; no error is raised (both embeddings are total functions). -/
theorem close_idempotent :
    (∀ s : SyncState, closeSync (closeSync s) = closeSync s) ∧
    (∀ (s : AsyncState) (o1 o2 : Option Msg),
        asyncClose (asyncClose s o1) o2 = asyncClose s o1) ∧
    (∀ (p : String) (b : Bool), closeSync (initSync p b) = initSync p b) ∧
    (∀ (p : String) (b : Bool) (o : Option Msg),
        asyncClose (initAsync p b) o = initAsync p b) := by
  refine ⟨?_, ?_, ?_, ?_⟩
  · intro s
    rw [closeSync_eq s]
    rw [closeSync_eq]
    by_cases h : (optTruthy s.sessionId && s.autoSession) = true
    · simp only [h]
      simp [optTruthy]
    · have h' : (optTruthy s.sessionId && s.autoSession) = false := by
        cases hx : (optTruthy s.sessionId && s.autoSession)
        · rfl
        · exact absurd hx h
      simp only [h']
      simp [h']
  · intro s o1 o2
    obtain ⟨hp, ho, hc, hr, ha, hs⟩ := asyncClose_proj s o1
    have hcond : (optTruthy (asyncClose s o1).sessionId &&
        (asyncClose s o1).autoSession) = false := by
      rw [ha, hs]
      by_cases hb : (optTruthy s.sessionId && s.autoSession) = true
      · rw [if_pos hb]; rfl
      · rw [if_neg hb]
        cases hx : (optTruthy s.sessionId && s.autoSession)
        · rfl
        · exact absurd hx hb
    exact asyncClose_fixed (asyncClose s o1) hcond hr hc ho hp o2
  · intro p b
    rw [closeSync_eq]
    simp [initSync, optTruthy]
  · intro p b o
    exact asyncClose_fixed (initAsync p b) rfl rfl rfl rfl rfl o

/-- A lookup that succeeds in a list still succeeds, with the same value,
after appending entries on the right. -/
theorem lookup_append_left {i : Int} {fs gs : List (Int × FutState)}
    {f : FutState} (h : List.lookup i fs = some f) :
    List.lookup i (fs ++ gs) = some f := by
  induction fs with
  | nil => simp [List.lookup] at h
  | cons hd tl ih =>
      obtain ⟨k, v⟩ := hd
      by_cases hk : i == k
      · simpa [List.lookup, hk] using h
      · simp only [List.cons_append, List.lookup, hk] at h ⊢
        exact ih h

/-- `failPending` turns a waiting future whose id is pending into a failed
one. -/
theorem lookup_failPending_mem {i : Int} {fs : List (Int × FutState)}
    {ids : List Int} {e : ConnErr} (hmem : i ∈ ids)
    (h : List.lookup i fs = some FutState.waiting) :
    List.lookup i (failPending fs ids e) = some (FutState.failed e) := by
  induction fs with
  | nil => simp [List.lookup] at h
  | cons hd tl ih =>
      obtain ⟨k, v⟩ := hd
      by_cases hk : i == k
      · have hik : i = k := eq_of_beq hk
        subst hik
        have hv : v = FutState.waiting := by simpa [List.lookup] using h
        subst hv
        rw [failPending, if_pos hmem]
        simp [List.lookup]
      · have h' : List.lookup i tl = some FutState.waiting := by
          simpa [List.lookup, hk] using h
        have htl := ih h'
        by_cases hki : k ∈ ids
        · cases v <;>
            (rw [failPending, if_pos hki]; simp only [List.lookup, hk]; exact htl)
        · cases v <;>
            (rw [failPending, if_neg hki]; simp only [List.lookup, hk]; exact htl)

/-- Erasing a freshly appended element recovers the original list. -/
theorem erase_append_self {rid : Int} {xs : List Int} (h : rid ∉ xs) :
    (xs ++ [rid]).erase rid = xs := by
  rw [List.erase_append_right _ h]
  simp

/-- The session-destroy phase of `close` leaves the pending key set
unchanged when every pending id is at most the counter (the destroy call's
fresh id is registered and popped again). -/
theorem closeDestroyPhase_pendingIds (s : AsyncState) (o : Option Msg)
    (hid : ∀ i ∈ s.pendingIds, i ≤ s.nextId) :
    (closeDestroyPhase s o).pendingIds = s.pendingIds := by
  by_cases h : (optTruthy s.sessionId && s.autoSession) = true <;>
    cases hc : s.connected <;>
      simp [closeDestroyPhase, h, hc]
  apply erase_append_self
  intro hmem
  have := hid _ hmem
  omega

/-- The session-destroy phase of `close` preserves the state of every
existing future. -/
theorem closeDestroyPhase_lookup (s : AsyncState) (o : Option Msg)
    {i : Int} {f : FutState} (h : List.lookup i s.futures = some f) :
    List.lookup i (closeDestroyPhase s o).futures = some f := by
  by_cases hb : (optTruthy s.sessionId && s.autoSession) = true <;>
    cases hc : s.connected <;>
      simp [closeDestroyPhase, hb, hc] <;>
        first
          | exact h
          | exact lookup_append_left h

/-- Claim C1: closing the async client fails every in-flight call: after
`close`, the pending map is empty and every future that was pending and
waiting has been completed exceptionally with a connection error. -/
theorem close_resolves_all_pending (s : AsyncState) (o : Option Msg)
    (hid : ∀ i ∈ s.pendingIds, i ≤ s.nextId) :
    (asyncClose s o).pendingIds = [] ∧
    ∀ i ∈ s.pendingIds, List.lookup i s.futures = some FutState.waiting →
      ∃ e, List.lookup i (asyncClose s o).futures = some (FutState.failed e) := by
  constructor
  · simp [asyncClose]
  · intro i hmem hfut
    have h1p := closeDestroyPhase_pendingIds s o hid
    have h1f := closeDestroyPhase_lookup s o hfut
    by_cases hrt : (closeDestroyPhase s o).readTask = true
    · refine ⟨ConnErr.lost, ?_⟩
      simp only [asyncClose, closeCancelReader]
      simp [hrt, failPending_nil]
      exact lookup_failPending_mem (h1p ▸ hmem) h1f
    · refine ⟨ConnErr.closed, ?_⟩
      simp only [asyncClose, closeCancelReader]
      simp [hrt, failPending_nil]
      exact lookup_failPending_mem (h1p ▸ hmem) h1f

/-- Witness for C1: a connected async client with two waiting in-flight
calls; close fails both and empties the pending map. -/
theorem close_resolves_all_pending_witness :
    (∀ i ∈ wAsync.pendingIds, i ≤ wAsync.nextId) ∧
    ((asyncClose wAsync none).pendingIds = [] ∧
     ∀ i ∈ wAsync.pendingIds, List.lookup i wAsync.futures = some FutState.waiting →
       ∃ e, List.lookup i (asyncClose wAsync none).futures = some (FutState.failed e)) :=
  ⟨by decide, close_resolves_all_pending wAsync none (by decide)⟩

/-- Claim C3 counterexample: the background reader, fed a malformed line,
continues with its state unchanged (silent skip) and goes on to route the
next response normally — no fatal transport error is surfaced. -/
theorem malformed_line_skipped_cex :
    routeLine cexRouter Line.malformed = LoopCtl.next cexRouter ∧
    readLoopRun cexRouter [Line.malformed, Line.msg cexResp] =
      { cexRouter with futures := [(1, FutState.resolved cexResp)],
                       pendingIds := [] } :=
  ⟨rfl, rfl⟩

/-- Claim C3 (amended): the synchronous read loop raises on a line that is
not parseable as JSON (never skips it), while the background-reader loop
silently skips a malformed line, leaving its state unchanged, and keeps
reading. -/
theorem malformed_line_amended :
    (∀ (reqId : Int) (rest : List Line),
        readForId reqId (Line.malformed :: rest) =
          Except.error CallErr.jsonDecodeError) ∧
    (∀ s : AsyncState, routeLine s Line.malformed = LoopCtl.next s) :=
  ⟨fun _ _ => rfl, fun _ => rfl⟩

/-- `parallel_navigate` maps each zipped (tab, response) pair to its own
per-entry value, in order. -/
theorem navigateLoop_eq (l : List ((String × String) × Msg)) :
    navigateLoop l = l.map (fun p => (p.1.1, navValue p.2)) := by
  induction l with
  | nil => rfl
  | cons hd tl ih =>
      obtain ⟨⟨tid, u⟩, resp⟩ := hd
      simp [navigateLoop, navValue, ih]

/-- One step of `screenshotsLoop`, phrased through the per-entry outcome
`shotEntry`: an entry exception aborts, an omitted entry contributes
nothing, a kept entry is prepended to the rest (which may itself abort). -/
theorem screenshotsLoop_cons (decode : Value → Except PyErr Value)
    (tid : String) (resp : Msg) (tl : List (String × Msg)) :
    screenshotsLoop decode ((tid, resp) :: tl) =
      (match shotEntry decode tid resp with
       | .error e => .error e
       | .ok none => screenshotsLoop decode tl
       | .ok (some ent) =>
           match screenshotsLoop decode tl with
           | .ok l2 => Except.ok (ent :: l2)
           | .error e => .error e) := by
  cases hr : resp.result with
  | none => simp only [screenshotsLoop, shotEntry, shotValue, hr]
  | some r =>
      cases hin : pyInData r with
      | error e =>
          simp only [screenshotsLoop, shotEntry, shotValue, hr, hin]
      | ok b =>
          cases b with
          | false =>
              simp only [screenshotsLoop, shotEntry, shotValue, hr, hin]
          | true =>
              cases hsub : pySubData r with
              | error e =>
                  simp only [screenshotsLoop, shotEntry, shotValue, hr, hin,
                    hsub]
              | ok d =>
                  cases hdec : decode d with
                  | error e =>
                      simp only [screenshotsLoop, shotEntry, shotValue, hr, hin,
                        hsub, hdec]
                  | ok bv =>
                      simp only [screenshotsLoop, shotEntry, shotValue, hr, hin,
                        hsub, hdec]

/-- `parallel_screenshots` sequences the per-entry outcomes over the zipped
list — short-circuiting on the first entry whose access raises — and keeps
the non-omitted entries, in order. -/
theorem screenshotsLoop_eq (decode : Value → Except PyErr Value)
    (l : List (String × Msg)) :
    screenshotsLoop decode l =
      (l.mapM (fun p => shotEntry decode p.1 p.2)).map (List.filterMap id) := by
  induction l with
  | nil => rfl
  | cons hd tl ih =>
      obtain ⟨tid, resp⟩ := hd
      rw [screenshotsLoop_cons, List.mapM_cons, ih]
      cases he : shotEntry decode tid resp with
      | error e => rfl
      | ok o =>
          cases o with
          | none =>
              cases hm : List.mapM (fun p => shotEntry decode p.1 p.2) tl <;> rfl
          | some ent =>
              cases hm : List.mapM (fun p => shotEntry decode p.1 p.2) tl <;> rfl

/-- `parallel_get_trees` is the per-entry tree extraction sequenced over the
zipped list. -/
theorem getTreesLoop_eq (l : List (String × Msg)) :
    getTreesLoop l =
      l.mapM (fun p => (treeValue p.2).map (fun v => (p.1, v))) := by
  induction l with
  | nil => rfl
  | cons hd tl ih =>
      obtain ⟨tid, resp⟩ := hd
      rw [List.mapM_cons, ← ih]
      cases hr : resp.result with
      | none =>
          cases h2 : getTreesLoop tl <;>
            simp only [getTreesLoop, treeValue, hr, h2, Except.map] <;> rfl
      | some r =>
          cases h3 : pyGet r "tree" (Value.arr []) <;>
            cases h2 : getTreesLoop tl <;>
              simp only [getTreesLoop, treeValue, hr, h3, h2, Except.map] <;> rfl

/-- Claim C6 counterexample: in `parallel_screenshots`, a tab whose
sub-call failed is omitted from the returned map entirely — it is not
represented by any error value. -/
theorem screenshots_omit_failed_cex :
    cexErrShot.error.isSome = true ∧
    parallel_screenshots (fun v => Except.ok v) ["t1", "t2"]
      [cexErrShot, cexOkShot] = Except.ok [("t2", Value.str "QUJD")] ∧
    ∀ (v : Value) (l : List (String × Value)),
      parallel_screenshots (fun v2 => Except.ok v2) ["t1", "t2"]
        [cexErrShot, cexOkShot] = Except.ok l → ("t1", v) ∉ l := by
  refine ⟨rfl, rfl, ?_⟩
  intro v l hl hv
  have hli : l = [("t2", Value.str "QUJD")] := by
    have h2 : (Except.ok [("t2", Value.str "QUJD")] :
        Except PyErr (List (String × Value))) = Except.ok l := by
      rw [← hl]
      rfl
    exact (Except.ok.inj h2).symm
  rw [hli] at hv
  have heq := List.mem_singleton.mp hv
  have : ("t1" : String) = "t2" := congrArg Prod.fst heq
  exact absurd this (by decide)

/-- Claim C6 (amended): no fan-out helper throws for an entry whose
sub-call failed, and each output entry is determined by its own
sub-response, so a failed entry never removes or alters sibling results;
`parallel_navigate` represents a failed entry by its error object (or a
default message object), `parallel_get_trees` by an empty tree list, while
`parallel_screenshots` omits failed entries from the returned map.  A
sub-response carrying a `result` of the wrong shape — a non-object the
helper then indexes into — aborts `parallel_get_trees` (AttributeError) or
`parallel_screenshots` (TypeError) wholesale; both abort paths are part of
the sequenced characterizations below, and a failed sub-call (error
envelope, `result` absent) never triggers them. -/
theorem parallel_helpers_amended :
    (∀ (urls : List (String × String)) (rs : List Msg),
        parallel_navigate urls rs =
          (urls.zip rs).map (fun p => (p.1.1, navValue p.2))) ∧
    (∀ (tids : List String) (rs : List Msg),
        parallel_get_trees tids rs =
          (tids.zip rs).mapM (fun p => (treeValue p.2).map (fun v => (p.1, v)))) ∧
    (∀ (decode : Value → Except PyErr Value) (tids : List String)
        (rs : List Msg),
        parallel_screenshots decode tids rs =
          ((tids.zip rs).mapM (fun p => shotEntry decode p.1 p.2)).map
            (List.filterMap id)) :=
  ⟨fun _ _ => navigateLoop_eq _, fun _ _ => getTreesLoop_eq _,
   fun decode _ _ => screenshotsLoop_eq decode _⟩

/-- The sync `_call` never touches the owned-tab list. -/
theorem syncCall_ownedTabs (s : SyncState) (m : String) (p : Option Value)
    (ls : List Line) : (syncCall s m p ls).1.ownedTabs = s.ownedTabs := by
  simp only [syncCall]
  split <;> rfl

/-- A successful `trackCreatedTab` appends exactly the returned tab id. -/
theorem trackCreatedTab_ok {owned : List Value} {out : Except CallErr Value}
    {t : Value} (h : (trackCreatedTab owned out).2 = Except.ok t) :
    (trackCreatedTab owned out).1 = owned ++ [t] := by
  cases out with
  | error e => simp [trackCreatedTab] at h
  | ok v =>
      cases hk : v.getKey "tabId" with
      | none => simp [trackCreatedTab, hk] at h
      | some t' =>
          simp [trackCreatedTab, hk] at h ⊢
          rw [h]

/-- Claim C10: every successful `tab_create` appends the returned tab id to
the client's owned-tab list, whatever the session configuration — in both
the synchronous and the asynchronous client. -/
theorem tab_create_appends_owned :
    (∀ (s : SyncState) (url : Option Value) (w hgt : Value)
        (hid sess : Option Value) (lines : List Line) (t : Value),
        (tab_create s url w hgt hid sess lines).2 = Except.ok t →
        (tab_create s url w hgt hid sess lines).1.ownedTabs =
          s.ownedTabs ++ [t]) ∧
    (∀ (a : AsyncState) (res : Except CallErr Value) (t : Value),
        (asyncTabCreate a res).2 = Except.ok t →
        (asyncTabCreate a res).1.ownedTabs = a.ownedTabs ++ [t]) := by
  constructor
  · intro s url w hgt hid sess lines t h
    simp only [tab_create] at h ⊢
    rw [trackCreatedTab_ok h, syncCall_ownedTabs]
  · intro a res t h
    simp only [asyncTabCreate] at h ⊢
    rw [trackCreatedTab_ok h]

/-- Witness for C10: a tab is appended both with no session at all
(auto-session off) and with an explicit session id overriding the client's
own. -/
theorem tab_create_appends_owned_witness :
    ((tab_create { wConn with autoSession := false } none (Value.num 1440)
        (Value.num 900) none none [Line.msg wTabResp]).2 =
          Except.ok (Value.str "tab7")) ∧
    (tab_create { wConn with autoSession := false } none (Value.num 1440)
        (Value.num 900) none none [Line.msg wTabResp]).1.ownedTabs =
      [Value.str "tab7"] ∧
    ((tab_create wConnS none (Value.num 1440) (Value.num 900) none
        (some (Value.str "other")) [Line.msg wTabResp]).2 =
          Except.ok (Value.str "tab7")) ∧
    (tab_create wConnS none (Value.num 1440) (Value.num 900) none
        (some (Value.str "other")) [Line.msg wTabResp]).1.ownedTabs =
      [Value.str "tab7"] := by
  refine ⟨rfl, ?_, rfl, ?_⟩
  · exact (tab_create_appends_owned.1 { wConn with autoSession := false } none
      (Value.num 1440) (Value.num 900) none none [Line.msg wTabResp]
      (Value.str "tab7") rfl).trans rfl
  · exact (tab_create_appends_owned.1 wConnS none (Value.num 1440)
      (Value.num 900) none (some (Value.str "other")) [Line.msg wTabResp]
      (Value.str "tab7") rfl).trans rfl

end Aslan
